import Mathlib

/-!
Shallow embedding of the SilenceBot core (duration parsing, pluralization,
translation resolution, duration formatting, and the `/muteme` / `/setlang`
command handlers) together with theorems settling the specification claims.

Translation catalogs (`english.json`, `ukrainian.json`) are data files that
are not part of the source tree; they are modelled as parameters
(`Catalog := String → Option String`), and every theorem about the resolver
quantifies over them.  JavaScript strings are modelled as Lean `String`,
JavaScript numbers as `Nat`/`Int`, and `undefined`-able values as `Option`.
Handlers that perform I/O are modelled as pure functions from their inputs
(including the outcomes of external calls, e.g. the admin-status lookup)
to the list of outbound actions they issue, in issue order.
-/

namespace SilenceBot

/-- JavaScript string locale-independent helpers: a list-of-chars version of
`String.split(/\s+/)` with empty fragments dropped (the handler's argument
strings never begin with whitespace, where the two differ). -/
def splitWsChars : List Char → List Char → List (List Char)
  | [], acc => [acc.reverse]
  | c :: rest, acc =>
    if c.isWhitespace then
      acc.reverse :: splitWsChars rest []
    else
      splitWsChars rest (c :: acc)

/-- `text.split(/\s+/)` on a string that does not start with whitespace. -/
def jsSplitWs (s : String) : List String :=
  ((splitWsChars s.data []).map String.mk).filter (fun t => t ≠ "")

/-- Splits a character list at every `':'`, the model of
`data.match(/^muteme:(\d+):(\d+):([mhd])$/)`-style colon-delimited parsing. -/
def splitOnColon : List Char → List (List Char)
  | [] => [[]]
  | c :: rest =>
    if c = ':' then
      [] :: splitOnColon rest
    else
      match splitOnColon rest with
      | [] => [[c]]
      | g :: gs => (c :: g) :: gs

/-- Decimal value of a digit string, the model of `parseInt(s, 10)` on an
all-digit string (JavaScript float imprecision above 2^53 is not modelled). -/
def digitsToNat (cs : List Char) : Nat :=
  cs.foldl (fun acc c => acc * 10 + (c.toNat - '0'.toNat)) 0

/-- Fuelled global literal replacement over character lists. -/
def replaceAllAux : Nat → List Char → List Char → List Char → List Char
  | 0, s, _, _ => s
  | _ + 1, [], _, _ => []
  | fuel + 1, c :: rest, pat, repl =>
    if pat ≠ [] ∧ pat.isPrefixOf (c :: rest) then
      repl ++ replaceAllAux fuel ((c :: rest).drop pat.length) pat repl
    else
      c :: replaceAllAux fuel rest pat repl

/-- The model of `str.replace(new RegExp(escapedLiteral, 'g'), repl)`:
every non-overlapping occurrence of the literal `pat` is replaced. -/
def jsReplaceAll (s pat repl : String) : String :=
  String.mk (replaceAllAux s.data.length s.data pat.data repl.data)

/-- JavaScript falsiness of a `string | undefined` value: `undefined` and the
empty string are falsy. -/
def jsFalsy : Option String → Bool
  | none => true
  | some s => s = ""

/-! ## Duration Parser (`src/helpers.ts`, `parseDuration`) -/

/-- The seconds-per-unit table of `parseDuration`'s `switch` on the
lower-cased unit character (the regex is case-insensitive). -/
def unitSeconds (c : Char) : Option Nat :=
  if c = 'm' ∨ c = 'M' then some 60
  else if c = 'h' ∨ c = 'H' then some 3600
  else if c = 'd' ∨ c = 'D' then some 86400
  else none

/-- `parseDuration(input)`: matches `^(\d+)([mhd])$` case-insensitively,
rejects a zero magnitude, converts to seconds and clamps with
`Math.min(seconds, 86400)`.  Returns `none` for `null`. -/
def parseDuration (input : String) : Option Nat :=
  match input.data.getLast? with
  | none => none
  | some u =>
    if input.data.dropLast = [] ∨ ¬ input.data.dropLast.all Char.isDigit then none
    else
      match unitSeconds u with
      | none => none
      | some mult =>
        if digitsToNat input.data.dropLast = 0 then none
        else some (min (digitsToNat input.data.dropLast * mult) 86400)

/-- `isNumberWithoutUnit(input)`: matches `^(\d+)$` and requires a strictly
positive value (`src/helpers.ts`). -/
def isNumberWithoutUnit (input : String) : Option Nat :=
  if input.data ≠ [] ∧ input.data.all Char.isDigit then
    let value := digitsToNat input.data
    if value > 0 then some value else none
  else none

/-! ## Pluralization Engine (`src/index.ts` draft of `pluralRules`) -/

/-- `getEnglishPluralCategory(count)`. -/
def getEnglishPluralCategory (count : Nat) : String :=
  if count = 1 then "one" else "other"

/-- `getUkrainianPluralCategory(count)`. -/
def getUkrainianPluralCategory (count : Nat) : String :=
  let mod10 := count % 10
  let mod100 := count % 100
  if mod10 = 1 ∧ mod100 ≠ 11 then "one"
  else if 2 ≤ mod10 ∧ mod10 ≤ 4 ∧ (mod100 < 10 ∨ mod100 ≥ 20) then "few"
  else if mod10 = 0 ∨ (5 ≤ mod10 ∧ mod10 ≤ 9) ∨ (11 ≤ mod100 ∧ mod100 ≤ 14) then "many"
  else "other"

/-- `getPluralCategory(count, languageCode)`: `switch` on the language code
with the English rule as the `default` arm. -/
def getPluralCategory (count : Nat) (languageCode : String) : String :=
  if languageCode = "en" then getEnglishPluralCategory count
  else if languageCode = "uk" then getUkrainianPluralCategory count
  else getEnglishPluralCategory count

/-! ## Translation Resolver (`src/i18n/index.ts`, `src/utils/formatting.ts`) -/

/-- A language's translation catalog: key → template, `none` for an absent
key.  The concrete catalogs live in JSON data files outside the source tree,
so the resolver is parametric in them. -/
def Catalog : Type := String → Option String

/-- The module-level `translationsCache`, holding one catalog per supported
language (`en`, `uk`). -/
structure Cache where
  en : Catalog
  uk : Catalog

/-- `DEFAULT_LANGUAGE`. -/
def DEFAULT_LANGUAGE : String := "en"

/-- Lookup in `translationsCache[languageCode]` (`undefined` for other keys). -/
def translationsCacheGet (cache : Cache) (languageCode : String) : Option Catalog :=
  if languageCode = "en" then some cache.en
  else if languageCode = "uk" then some cache.uk
  else none

/-- `loadTranslations(languageCode)`:
`translationsCache[languageCode] || translationsCache[DEFAULT_LANGUAGE]`. -/
def loadTranslations (cache : Cache) (languageCode : String) : Catalog :=
  (translationsCacheGet cache languageCode).getD cache.en

/-- `getTranslation(key, languageCode)` (`src/i18n/index.ts` lines 36–50):
looks the key up in the requested language's catalog; if the result is falsy
and the language is not the default, returns the default catalog's entry
(possibly `undefined`); otherwise returns the looked-up value as is. -/
def getTranslation (cache : Cache) (key languageCode : String) : Option String :=
  let translations := loadTranslations cache languageCode
  let translation := translations key
  if jsFalsy translation ∧ languageCode ≠ DEFAULT_LANGUAGE then
    cache.en key
  else translation

/-- The placeholder-substitution loop shared by `formatTranslation` and
`formatPluralTranslation`: for each `(key, value)` pair in order, replaces
every occurrence of the literal `{key}` (optional chaining keeps
`undefined`). -/
def replaceParams (t : Option String) (params : List (String × String)) : Option String :=
  params.foldl
    (fun acc p => acc.map (fun s => jsReplaceAll s ("\x7b" ++ p.1 ++ "\x7d") p.2)) t

/-- `formatTranslation(key, languageCode, params)` (`src/i18n/index.ts`
lines 60–74): resolves the key, substitutes placeholders, and returns
`translation || ''`. -/
def formatTranslation (cache : Cache) (key languageCode : String)
    (params : List (String × String) := []) : String :=
  (replaceParams (getTranslation cache key languageCode) params).getD ""

/-- The object spread `{ ...params, amount: count.toString() }`: an existing
`amount` binding keeps its position but its value is overwritten; otherwise
the pair is appended. -/
def spreadSetAmount (params : List (String × String)) (v : String) :
    List (String × String) :=
  if params.any (fun p => p.1 = "amount") then
    params.map (fun p => if p.1 = "amount" then ("amount", v) else p)
  else params ++ [("amount", v)]

/-- `formatPluralTranslation(baseKey, count, languageCode, params)`
(`src/utils/formatting.ts` lines 38–71): picks the plural category, tries
`baseKey.category` then `baseKey.other` in the language's own catalog,
spreads `amount = count.toString()` over `params`, substitutes, and returns
`result || ''`. -/
def formatPluralTranslation (cache : Cache) (baseKey : String) (count : Nat)
    (languageCode : String) (params : List (String × String) := []) : String :=
  let pluralCategory := getPluralCategory count languageCode
  let pluralKey := baseKey ++ "." ++ pluralCategory
  let translations := loadTranslations cache languageCode
  let translation := translations pluralKey
  let translation :=
    if jsFalsy translation then translations (baseKey ++ ".other") else translation
  let allParams := spreadSetAmount params (toString count)
  (replaceParams translation allParams).getD ""

/-! ## Duration Formatter (`src/utils/formatting.ts` lines 78–109) -/

/-- `formatDuration(durationSeconds, languageCode)`. -/
def formatDuration (cache : Cache) (durationSeconds : Nat)
    (languageCode : String) : String :=
  if durationSeconds ≥ 86400 then
    formatPluralTranslation cache "duration.day" 1 languageCode
  else
    let hours := durationSeconds / 3600
    let remainingSeconds := durationSeconds % 3600
    let minutes := remainingSeconds / 60
    let durationMinuteText :=
      formatPluralTranslation cache "duration.minute" minutes languageCode
        [("amount", toString minutes)]
    if hours > 0 then
      let durationHourText :=
        formatPluralTranslation cache "duration.hour" hours languageCode
          [("amount", toString hours)]
      if minutes = 0 then durationHourText
      else durationHourText ++ " " ++ durationMinuteText
    else durationMinuteText

/-! ## Data model of the Telegram webhook inputs and outbound actions -/

/-- An inline keyboard button: visible text plus the opaque payload echoed
back on a click. -/
structure Button where
  text : String
  callback_data : String
deriving DecidableEq, Repr

/-- The outbound effects a handler can issue, in issue order; `restrictOk`
style booleans below model the success of the corresponding API response. -/
inductive Action where
  | sendMessage (chatId : Int) (text : String) (replyToMessageId : Option Nat)
      (replyMarkup : Option (List (List Button)))
  | restrictMember (chatId : Int) (userId : Nat) (untilDate : Nat)
  | answerCallbackQuery (callbackQueryId : String) (text : String)
  | deleteMessage (chatId : Int) (messageId : Nat)
  | putChatLanguage (chatId : Int) (languageCode : String)
deriving DecidableEq, Repr

/-- The fields of an inbound `message` envelope the handlers read.  `text` is
`Option` because the runtime payload may omit it (`'text' in message`). -/
structure Message where
  message_id : Nat
  from_id : Nat
  chat_id : Int
  text : Option String := none
  reply_to_message_id : Option Nat := none
  reply_markup : Option (List (List Button)) := none
deriving DecidableEq, Repr

/-- The fields of an inbound `callback_query` envelope the handlers read. -/
structure CallbackQuery where
  id : String
  from_id : Nat
  message : Option Message := none
  data : Option String := none
deriving DecidableEq, Repr

/-! ## `/muteme` command handler (`src/utils/formatting.ts` draft) -/

/-- How `handleMutemeCommand` classifies its (optional) first argument:
bare number → disambiguation prompt; no argument → preset prompt; otherwise
a concrete mute with the `invalid` / `capped` notice flags. -/
inductive MutemeClassification where
  | ambiguous (n : Nat)
  | presets
  | mute (durationSeconds : Nat) (invalid capped : Bool)
deriving DecidableEq, Repr

/-- The argument-classification chain of `handleMutemeCommand`:
`isNumberWithoutUnit` is consulted first; only when it fails is
`parseDuration` attempted; an unparseable token defaults to 1800 seconds
with the `invalid` flag, and the `capped` flag is
`parsedDuration > 86400` on the value `parseDuration` returned. -/
def classifyMuteme : Option String → MutemeClassification
  | none => .presets
  | some tok =>
    match isNumberWithoutUnit tok with
    | some n => .ambiguous n
    | none =>
      match parseDuration tok with
      | some d => .mute d false (decide (d > 86400))
      | none => .mute 1800 true false

/-- Projects the `capped` flag out of a classification. -/
def cappedOf : MutemeClassification → Bool
  | .mute _ _ c => c
  | _ => false

/-- The confirmation text of `/muteme`: the success line, then at most one of
the `invalid` / `capped` notice lines (`else if`, so mutually exclusive). -/
def mutemeReply (cache : Cache) (chatLang : String) (durationSeconds : Nat)
    (invalid capped : Bool) (requestedDuration : Option String) : String :=
  let base := formatTranslation cache "muteme.success" chatLang
    [("duration", formatDuration cache durationSeconds chatLang)]
  if invalid then
    base ++ "\n" ++ formatTranslation cache "muteme.invalid_duration" chatLang
      [("duration", requestedDuration.getD "")]
  else if capped then
    base ++ "\n" ++ formatTranslation cache "muteme.duration_capped" chatLang
  else base

/-- The tail of `handleMutemeCommand` once a concrete duration is fixed:
admin refusal, else the restriction call followed (on success) by the
confirmation message; a failed restriction throws, so nothing follows it. -/
def proceedMute (chatId : Int) (userId messageId : Nat) (chatLang : String)
    (isAdmin restrictOk : Bool) (now : Nat) (cache : Cache)
    (durationSeconds : Nat) (invalid capped : Bool)
    (requestedDuration : Option String) : List Action :=
  if isAdmin then
    [.sendMessage chatId
      (formatTranslation cache "muteme.error.is_admin" chatLang)
      (some messageId) none]
  else
    .restrictMember chatId userId (now + durationSeconds) ::
    if restrictOk then
      [.sendMessage chatId
        (mutemeReply cache chatLang durationSeconds invalid capped requestedDuration)
        (some messageId) none]
    else []

/-- The two-button disambiguation keyboard for a bare number `n`, each
payload carrying the requesting user's id. -/
def mutemeAmbiguousButtons (cache : Cache) (chatLang : String) (userId n : Nat) :
    List (List Button) :=
  [[⟨formatPluralTranslation cache "muteme.prompt.option.minute" n chatLang
       [("amount", toString n)],
     "muteme:" ++ toString userId ++ ":" ++ toString n ++ ":m"⟩,
    ⟨formatPluralTranslation cache "muteme.prompt.option.hour" n chatLang
       [("amount", toString n)],
     "muteme:" ++ toString userId ++ ":" ++ toString n ++ ":h"⟩]]

/-- The three-button preset keyboard shown when `/muteme` has no argument. -/
def mutemePresetButtons (cache : Cache) (chatLang : String) (userId : Nat) :
    List (List Button) :=
  [[⟨formatPluralTranslation cache "muteme.prompt.option.minute" 30 chatLang
       [("amount", "30")],
     "muteme:" ++ toString userId ++ ":30:m"⟩,
    ⟨formatPluralTranslation cache "muteme.prompt.option.hour" 8 chatLang
       [("amount", "8")],
     "muteme:" ++ toString userId ++ ":8:h"⟩,
    ⟨formatPluralTranslation cache "muteme.prompt.option.day" 1 chatLang
       [("amount", "1")],
     "muteme:" ++ toString userId ++ ":1:d"⟩]]

/-- `handleMutemeCommand(message, env)` as a pure function of the message,
the chat's stored language, the admin-lookup outcome, the restriction call's
success, the current Unix time and the catalogs. -/
def handleMutemeCommand (msg : Message) (chatLang : String)
    (isAdmin restrictOk : Bool) (now : Nat) (cache : Cache) : List Action :=
  let text := msg.text.getD ""
  let args := (jsSplitWs text).drop 1
  let requestedDuration := args.head?
  match classifyMuteme requestedDuration with
  | .ambiguous n =>
    [.sendMessage msg.chat_id (formatTranslation cache "muteme.prompt" chatLang)
      (some msg.message_id)
      (some (mutemeAmbiguousButtons cache chatLang msg.from_id n))]
  | .presets =>
    [.sendMessage msg.chat_id (formatTranslation cache "muteme.prompt" chatLang)
      (some msg.message_id)
      (some (mutemePresetButtons cache chatLang msg.from_id))]
  | .mute d invalid capped =>
    proceedMute msg.chat_id msg.from_id msg.message_id chatLang isAdmin restrictOk
      now cache d invalid capped requestedDuration

/-! ## `/muteme` callback handler (`src/utils/formatting.ts` draft) -/

/-- The callback-data regex `^muteme:(\d+):(\d+):([mhd])$`: exactly four
colon-separated groups, the literal tag, two non-empty digit groups, and a
one-character unit. -/
def parseMutemeCallback (data : String) : Option (Nat × Nat × String) :=
  match (splitOnColon data.data).map String.mk with
  | [tag, d1, d2, u] =>
    if tag = "muteme" ∧ d1 ≠ "" ∧ d1.data.all Char.isDigit ∧
       d2 ≠ "" ∧ d2.data.all Char.isDigit ∧ (u = "m" ∨ u = "h" ∨ u = "d") then
      some (digitsToNat d1.data, digitsToNat d2.data, u)
    else none
  | _ => none

/-- The `switch (unit)` of `handleMutemeCallbackQuery`: minutes, hours, or a
fixed day. -/
def callbackDurationSeconds (amount : Nat) (unit : String) : Nat :=
  if unit = "m" then amount * 60
  else if unit = "h" then amount * 3600
  else 86400

/-- `handleMutemeCallbackQuery(callbackQuery, env)` as a pure function.
Guard order follows the source: missing/falsy chat id or data, payload
parse, the authorizing-user check, duration computation and cap, admin
check, restriction, prompt deletion, confirmation. -/
def handleMutemeCallbackQuery (cq : CallbackQuery) (chatLang : String)
    (isAdmin restrictOk : Bool) (now : Nat) (cache : Cache) : List Action :=
  match cq.message, cq.data with
  | some msg, some data =>
    if msg.chat_id = 0 ∨ data = "" then []
    else
      match parseMutemeCallback data with
      | none => []
      | some (authorizedUserId, amount, unit) =>
        if cq.from_id ≠ authorizedUserId then
          [.answerCallbackQuery cq.id
            (formatTranslation cache "muteme.error.unauthorized" chatLang)]
        else
          let durationSeconds := min (callbackDurationSeconds amount unit) 86400
          if isAdmin then
            [.answerCallbackQuery cq.id
              (formatTranslation cache "muteme.error.is_admin" chatLang)]
          else
            .restrictMember msg.chat_id cq.from_id (now + durationSeconds) ::
            if restrictOk then
              .deleteMessage msg.chat_id msg.message_id ::
              [.sendMessage msg.chat_id
                (formatTranslation cache "muteme.success" chatLang
                  [("duration", formatDuration cache durationSeconds chatLang)])
                msg.reply_to_message_id none]
            else
              [.answerCallbackQuery cq.id
                (formatTranslation cache "error.api_failed" chatLang)]
  | _, _ => []

/-! ## `/setlang` handlers (`src/handlers/language-handler.ts`) -/

/-- Modelled from the spec: `ENABLED_LANGUAGES` lives in `src/config.ts`,
which is absent from the source tree; the spec fixes the supported set to
`en` and `uk`. -/
def ENABLED_LANGUAGES : List String := ["en", "uk"]

/-- `sendSetLangPromptReply(message, env)`: a non-administrator gets a
localized refusal (no keyboard) and nothing else; an administrator gets the
prompt with one button per enabled language. -/
def sendSetLangPromptReply (msg : Message) (chatLang : String)
    (isAdmin : Bool) (cache : Cache) : List Action :=
  if ¬isAdmin then
    [.sendMessage msg.chat_id
      (formatTranslation cache "language.set.error.not_admin" chatLang) none none]
  else
    [.sendMessage msg.chat_id
      (formatTranslation cache "language.set.prompt" chatLang) none
      (some [ENABLED_LANGUAGES.map (fun lang =>
        ⟨formatTranslation cache ("language.set.prompt.option." ++ lang) chatLang,
         lang⟩)])]

/-- `message?.reply_markup?.inline_keyboard[0].find(...)?.text || languageCode`
(the `undefined[0]` case, which would throw in JS, is not reachable from the
prompts this bot sends and is modelled as the fallback). -/
def selectedButtonText (msg : Message) (languageCode : String) : String :=
  match (msg.reply_markup.bind List.head?).bind
      (List.find? (fun b => b.callback_data = languageCode)) with
  | some b => if b.text = "" then languageCode else b.text
  | none => languageCode

/-- `handleSetLangCallbackQuery(callbackQuery, env)` as a pure function.
Guard order follows the source: missing/falsy chat id or data, admin check,
inaccessible-message check, language validation, then the store write,
callback answer and prompt deletion. -/
def handleSetLangCallbackQuery (cq : CallbackQuery) (chatLang : String)
    (isAdmin : Bool) (cache : Cache) : List Action :=
  match cq.message, cq.data with
  | some msg, some languageCode =>
    if msg.chat_id = 0 ∨ languageCode = "" then []
    else if ¬isAdmin then
      [.sendMessage msg.chat_id
        (formatTranslation cache "language.set.error.not_admin" chatLang) none none]
    else if msg.text = none then []
    else if ¬(ENABLED_LANGUAGES.contains languageCode) then
      [.sendMessage msg.chat_id
        (formatTranslation cache "language.set.error.invalid_language" chatLang
          [("languages", String.intercalate "," ENABLED_LANGUAGES)]) none none]
    else
      .putChatLanguage msg.chat_id languageCode ::
      .answerCallbackQuery cq.id
        (formatTranslation cache "language.set.success" languageCode
          [("language", selectedButtonText msg languageCode)]) ::
      [.deleteMessage msg.chat_id msg.message_id]
  | _, _ => []

/-! ## Admin-status lookup (`src/helpers/admins.ts`) -/

/-- The decoded `getChatMember` payload's `result` field. -/
structure ChatMember where
  status : String
deriving DecidableEq, Repr

/-- `isChatAdministrator(botToken, chatId, userId)` as a function of the
fetch-and-decode outcome: the `catch` arm returns `false`; otherwise the
member's status must be `administrator` or `creator`. -/
def isChatAdministrator (fetchResult : Except String ChatMember) : Bool :=
  match fetchResult with
  | .error _ => false
  | .ok data => data.status = "administrator" ∨ data.status = "creator"

/-! ## Concrete catalogs for closed evaluations -/

/-- A cache whose catalogs contain no keys at all. -/
def emptyCache : Cache := ⟨fun _ => none, fun _ => none⟩

/-- A one-phrase English catalog for exercising plural substitution. -/
def minuteCatalog : Catalog := fun k =>
  if k = "duration.minute.other" then some "\x7bamount\x7d minutes"
  else if k = "duration.minute.one" then some "\x7bamount\x7d minute"
  else none

/-- A cache carrying `minuteCatalog` for both languages. -/
def minuteCache : Cache := ⟨minuteCatalog, minuteCatalog⟩

end SilenceBot

namespace SilenceBot

example : parseDuration "45m" = some 2700 := by decide
example : parseDuration "90h" = some 86400 := by decide
example : parseDuration "1D" = some 86400 := by decide
example : parseDuration "0m" = none := by decide
example : parseDuration "12" = none := by decide
example : isNumberWithoutUnit "12" = some 12 := by decide
example : isNumberWithoutUnit "0" = none := by decide
example : jsReplaceAll "\x7bamount\x7d minutes" "\x7bamount\x7d" "5" = "5 minutes" := by decide
example : jsSplitWs "/muteme 25" = ["/muteme", "25"] := by decide
example : getPluralCategory 21 "uk" = "one" := by decide
example : parseMutemeCallback "muteme:123456:12:m" = some (123456, 12, "m") := by decide
example : parseMutemeCallback "muteme:1:2" = none := by decide
example : classifyMuteme (some "90h") = .mute 86400 false false := by decide
example : classifyMuteme (some "25") = .ambiguous 25 := by decide
example : classifyMuteme (some "xyz") = .mute 1800 true false := by decide
example : classifyMuteme none = .presets := by decide
example :
    formatPluralTranslation minuteCache "duration.minute" 2 "en" [("amount", "5")] =
      "2 minutes" := by decide
example :
    handleMutemeCallbackQuery ⟨"cb1", 7, some ⟨10, 7, 5, some "p", none, none⟩,
        some "muteme:5:10:m"⟩ "en" false true 0 emptyCache =
      [.answerCallbackQuery "cb1" ""] := by decide
example : getTranslation emptyCache "missing.key" "uk" = none := by decide
example : formatTranslation emptyCache "missing.key" "uk" = "" := by decide
example :
    handleMutemeCommand ⟨10, 7, 5, some "/muteme 25", none, none⟩ "en" false true 0
        emptyCache =
      [.sendMessage 5 "" (some 10)
        (some [[⟨"", "muteme:7:25:m"⟩, ⟨"", "muteme:7:25:h"⟩]])] := by decide

/-! ## Helper lemmas -/

theorem unitSeconds_bounds {u : Char} {m : Nat} (h : unitSeconds u = some m) :
    60 ≤ m ∧ m ≤ 86400 := by
  unfold unitSeconds at h
  split_ifs at h <;> simp_all <;> omega

theorem parseDuration_range (s : String) (n : Nat) (h : parseDuration s = some n) :
    60 ≤ n ∧ n ≤ 86400 := by
  unfold parseDuration at h
  split at h
  · simp at h
  · rename_i u heq
    split_ifs at h with hd hv
    · rcases hm : unitSeconds u with _ | mult <;> rw [hm] at h <;> simp at h
    · rcases hm : unitSeconds u with _ | mult <;> rw [hm] at h
      · simp at h
      · simp at h
        have hb := unitSeconds_bounds hm
        have hle : mult ≤ digitsToNat s.data.dropLast * mult :=
          Nat.le_mul_of_pos_left mult (Nat.pos_of_ne_zero hv)
        omega

theorem replaceParams_none (params : List (String × String)) :
    replaceParams none params = none := by
  induction params with
  | nil => rfl
  | cons p ps ih => simpa [replaceParams] using ih

/-! ## Claim theorems -/

/-- C9: for every input string, `parseDuration` returns either `null` or an
integer in the closed range [60, 86400]: a non-null result is never zero,
never negative, and never exceeds 86400 (minimum accepted token is `1m`,
and the result is clamped with `min` before being returned). -/
theorem parseDuration_result_in_range (s : String) (n : Nat)
    (h : parseDuration s = some n) : 60 ≤ n ∧ n ≤ 86400 :=
  parseDuration_range s n h

/-- Witness for C9 at the concrete token `45m`. -/
theorem parseDuration_result_in_range_witness :
    parseDuration "45m" = some 2700 ∧ 60 ≤ 2700 ∧ 2700 ≤ 86400 :=
  ⟨by decide, (parseDuration_result_in_range "45m" 2700 (by decide)).1,
   (parseDuration_result_in_range "45m" 2700 (by decide)).2⟩

/-- C1 (code bug): `parseDuration` does return `min(N × unitSeconds, 86400)`
(e.g. `90h ↦ 86400`), but `handleMutemeCommand` computes the `capped` flag
as `parsedDuration > 86400` on the value `parseDuration` already clamped, so
the flag is `false` for every token — including `90h`, whose requested
324000 seconds exceed the cap — contradicting the claim that capping is
flagged iff `N × unitSeconds > 86400`. -/
theorem muteme_capped_flag_never_set :
    parseDuration "90h" = some 86400 ∧ 90 * 3600 > 86400 ∧
    classifyMuteme (some "90h") = .mute 86400 false false ∧
    ∀ tok : String, cappedOf (classifyMuteme (some tok)) = false := by
  refine ⟨by decide, by decide, by decide, ?_⟩
  intro tok
  simp only [classifyMuteme]
  cases hnu : isNumberWithoutUnit tok with
  | some n => simp [cappedOf]
  | none =>
    cases hp : parseDuration tok with
    | none => simp [cappedOf]
    | some d =>
      have hd := (parseDuration_range tok d hp).2
      simp only [cappedOf, decide_eq_false_iff_not]
      omega

/-- C6: the plural category function satisfies the rule table
(`1/en ↦ one`, `0/en ↦ other`, `21/uk ↦ one`, `11/uk ↦ many`,
`3/uk ↦ few`), and every language code outside the supported set gets the
English rule (`count = 1 → one`, else `other`). -/
theorem pluralCategory_rule_table :
    getPluralCategory 1 "en" = "one" ∧ getPluralCategory 0 "en" = "other" ∧
    getPluralCategory 21 "uk" = "one" ∧ getPluralCategory 11 "uk" = "many" ∧
    getPluralCategory 3 "uk" = "few" ∧
    ∀ (lang : String) (count : Nat), lang ≠ "en" → lang ≠ "uk" →
      getPluralCategory count lang = if count = 1 then "one" else "other" := by
  refine ⟨by decide, by decide, by decide, by decide, by decide, ?_⟩
  intro lang count h1 h2
  simp [getPluralCategory, getEnglishPluralCategory, h1, h2]

/-- Witness for C6 at the unsupported language code `de` and count 5. -/
theorem pluralCategory_rule_table_witness :
    getPluralCategory 5 "de" = "other" :=
  (pluralCategory_rule_table.2.2.2.2.2 "de" 5 (by decide) (by decide)).trans
    (by decide)

/-- C4 (code bug): `formatPluralTranslation` builds its substitution map as
the spread `{ ...params, amount: count.toString() }`, which always
overwrites a caller-supplied `amount` — here the explicit `amount = "5"`
is replaced by the count `2`, yielding `"2 minutes"` rather than the
`"5 minutes"` the claim (and the code's own comment `Add count to params if
not already present`) calls for. -/
theorem formatPluralTranslation_overwrites_amount :
    formatPluralTranslation minuteCache "duration.minute" 2 "en"
      [("amount", "5")] = "2 minutes" ∧
    spreadSetAmount [("amount", "5")] "2" = [("amount", "2")] ∧
    ("2 minutes" : String) ≠ "5 minutes" := by
  refine ⟨by decide, by decide, by decide⟩

/-- C3 counterexample: for a key absent from both catalogs, `getTranslation`
returns `undefined` (not the raw key) and `formatTranslation` returns the
empty string (a blank, not the raw key), refuting the claim that the
resolver never yields undefined/blank and degrades to the key itself. -/
theorem getTranslation_missing_key_counterexample :
    getTranslation emptyCache "missing.key" "uk" = none ∧
    formatTranslation emptyCache "missing.key" "uk" = "" ∧
    formatTranslation emptyCache "missing.key" "uk" ≠ "missing.key" := by
  refine ⟨by decide, by decide, by decide⟩

/-- C3 amended: the resolver does fall back to the default-language catalog
for a key missing from the requested language's catalog, but when the key
is absent from the default catalog too, `getTranslation` returns
`undefined` and `formatTranslation` returns the empty string — the raw key
is never returned. -/
theorem getTranslation_missing_key_amended :
    ∀ (cache : Cache) (key lang : String) (params : List (String × String)),
      getTranslation cache key "en" = cache.en key ∧
      (cache.uk key = none → getTranslation cache key "uk" = cache.en key) ∧
      (getTranslation cache key lang = none →
        formatTranslation cache key lang params = "") := by
  intro cache key lang params
  refine ⟨?_, ?_, ?_⟩
  · simp [getTranslation, loadTranslations, translationsCacheGet, DEFAULT_LANGUAGE]
  · intro h
    simp [getTranslation, loadTranslations, translationsCacheGet, DEFAULT_LANGUAGE,
      h, jsFalsy]
  · intro h
    simp [formatTranslation, h, replaceParams_none]

/-- Witness for C3's amended statement at a concrete empty catalog. -/
theorem getTranslation_missing_key_amended_witness :
    getTranslation emptyCache "some.key" "en" = emptyCache.en "some.key" ∧
    getTranslation emptyCache "some.key" "uk" = emptyCache.en "some.key" ∧
    formatTranslation emptyCache "some.key" "uk" [] = "" :=
  ⟨(getTranslation_missing_key_amended emptyCache "some.key" "uk" []).1,
   (getTranslation_missing_key_amended emptyCache "some.key" "uk" []).2.1 rfl,
   (getTranslation_missing_key_amended emptyCache "some.key" "uk" []).2.2
     (by decide)⟩

/-- C7: for every catalog and language, `formatDuration` returns exactly the
pluralized day phrase for count 1 when `seconds ≥ 86400`, and, when
`seconds < 86400` with `hours = ⌊seconds/3600⌋ > 0` and
`minutes = ⌊(seconds mod 3600)/60⌋ > 0`, the pluralized hour phrase for
`hours`, a single separating space, then the pluralized minute phrase for
`minutes`. -/
theorem formatDuration_structure :
    ∀ (cache : Cache) (lang : String) (s : Nat),
      (s ≥ 86400 →
        formatDuration cache s lang =
          formatPluralTranslation cache "duration.day" 1 lang) ∧
      (s < 86400 → 0 < s / 3600 → 0 < s % 3600 / 60 →
        formatDuration cache s lang =
          formatPluralTranslation cache "duration.hour" (s / 3600) lang
            [("amount", toString (s / 3600))] ++ " " ++
          formatPluralTranslation cache "duration.minute" (s % 3600 / 60) lang
            [("amount", toString (s % 3600 / 60))]) := by
  intro cache lang s
  constructor
  · intro h
    simp [formatDuration, h]
  · intro h hh hm
    simp only [formatDuration]
    rw [if_neg (by omega), if_pos hh, if_neg (by omega)]

/-- Witness for C7 at 90000 seconds (day phrase) and 5400 seconds
(1 hour 30 minutes). -/
theorem formatDuration_structure_witness :
    formatDuration emptyCache 90000 "en" =
      formatPluralTranslation emptyCache "duration.day" 1 "en" ∧
    formatDuration emptyCache 5400 "en" =
      formatPluralTranslation emptyCache "duration.hour" (5400 / 3600) "en"
        [("amount", toString (5400 / 3600))] ++ " " ++
      formatPluralTranslation emptyCache "duration.minute" (5400 % 3600 / 60) "en"
        [("amount", toString (5400 % 3600 / 60))] :=
  ⟨(formatDuration_structure emptyCache "en" 90000).1 (by decide),
   (formatDuration_structure emptyCache "en" 5400).2 (by decide) (by decide)
     (by decide)⟩

/-- C5: a bare positive number as the `/muteme` argument is classified as
ambiguous — the bare-number check runs before the duration parse — and the
handler's only action is the disambiguation prompt carrying the
`N minutes` / `N hours` buttons tagged with the requester's id: no
restriction, no invalid-defaulted treatment. -/
theorem muteme_bare_number_ambiguous :
    ∀ (msg : Message) (chatLang : String) (isAdmin restrictOk : Bool) (now : Nat)
      (cache : Cache) (tok : String) (n : Nat),
      ((jsSplitWs (msg.text.getD "")).drop 1).head? = some tok →
      isNumberWithoutUnit tok = some n →
      classifyMuteme (some tok) = .ambiguous n ∧
      handleMutemeCommand msg chatLang isAdmin restrictOk now cache =
        [.sendMessage msg.chat_id (formatTranslation cache "muteme.prompt" chatLang)
          (some msg.message_id)
          (some (mutemeAmbiguousButtons cache chatLang msg.from_id n))] := by
  intro msg chatLang isAdmin restrictOk now cache tok n harg hnum
  have hcls : classifyMuteme (some tok) = .ambiguous n := by
    simp [classifyMuteme, hnum]
  refine ⟨hcls, ?_⟩
  simp only [handleMutemeCommand]
  rw [harg, hcls]

/-- Witness for C5 at the concrete command `/muteme 25`. -/
theorem muteme_bare_number_ambiguous_witness :
    classifyMuteme (some "25") = .ambiguous 25 ∧
    handleMutemeCommand ⟨10, 7, 5, some "/muteme 25", none, none⟩ "en" false true 0
        emptyCache =
      [.sendMessage 5 (formatTranslation emptyCache "muteme.prompt" "en") (some 10)
        (some (mutemeAmbiguousButtons emptyCache "en" 7 25))] :=
  muteme_bare_number_ambiguous ⟨10, 7, 5, some "/muteme 25", none, none⟩ "en" false
    true 0 emptyCache "25" 25 (by decide) (by decide)

/-- C2: when a `muteme` button payload embeds authorizing user id `a` and
the clicking user's id differs from `a`, the callback handler's only action
is answering the query with the localized unauthorized notice — no
`restrictMember` action is issued and no message is deleted. -/
theorem muteme_callback_unauthorized :
    ∀ (cq : CallbackQuery) (msg : Message) (chatLang : String)
      (isAdmin restrictOk : Bool) (now : Nat) (cache : Cache)
      (d : String) (a amt : Nat) (u : String),
      cq.message = some msg → msg.chat_id ≠ 0 → cq.data = some d →
      parseMutemeCallback d = some (a, amt, u) → cq.from_id ≠ a →
      handleMutemeCallbackQuery cq chatLang isAdmin restrictOk now cache =
        [.answerCallbackQuery cq.id
          (formatTranslation cache "muteme.error.unauthorized" chatLang)] ∧
      (∀ c uid t, Action.restrictMember c uid t ∉
        handleMutemeCallbackQuery cq chatLang isAdmin restrictOk now cache) ∧
      (∀ c m, Action.deleteMessage c m ∉
        handleMutemeCallbackQuery cq chatLang isAdmin restrictOk now cache) := by
  intro cq msg chatLang isAdmin restrictOk now cache d a amt u hmsg hchat hdata
    hparse hne
  have hdne : d ≠ "" := by
    rintro rfl
    rw [show parseMutemeCallback "" = none from by decide] at hparse
    exact Option.noConfusion hparse
  have heq : handleMutemeCallbackQuery cq chatLang isAdmin restrictOk now cache =
      [.answerCallbackQuery cq.id
        (formatTranslation cache "muteme.error.unauthorized" chatLang)] := by
    simp [handleMutemeCallbackQuery, hmsg, hdata, hparse, hchat, hdne, hne]
  refine ⟨heq, ?_, ?_⟩
  · intro c uid t
    rw [heq]
    simp
  · intro c m
    rw [heq]
    simp

/-- Witness for C2: user 7 clicks a button authorized for user 5. -/
theorem muteme_callback_unauthorized_witness :
    handleMutemeCallbackQuery
        ⟨"cb1", 7, some ⟨10, 7, 5, some "p", none, none⟩, some "muteme:5:10:m"⟩
        "en" false true 0 emptyCache =
      [.answerCallbackQuery "cb1"
        (formatTranslation emptyCache "muteme.error.unauthorized" "en")] :=
  (muteme_callback_unauthorized
    ⟨"cb1", 7, some ⟨10, 7, 5, some "p", none, none⟩, some "muteme:5:10:m"⟩
    ⟨10, 7, 5, some "p", none, none⟩ "en" false true 0 emptyCache
    "muteme:5:10:m" 5 10 "m" rfl (by decide) rfl (by decide) (by decide)).1

/-- C8: `/setlang` invoked by a non-administrator — as a command or as a
language-selection button click — yields exactly one action: a refusal
message localized to the chat's current language, with no keyboard attached;
in particular no language preference is ever written. -/
theorem setlang_non_admin_refused :
    ∀ (msg m2 : Message) (cq : CallbackQuery) (chatLang lang2 : String)
      (cache : Cache),
      sendSetLangPromptReply msg chatLang false cache =
        [.sendMessage msg.chat_id
          (formatTranslation cache "language.set.error.not_admin" chatLang)
          none none] ∧
      (cq.message = some m2 → m2.chat_id ≠ 0 → cq.data = some lang2 →
        lang2 ≠ "" →
        handleSetLangCallbackQuery cq chatLang false cache =
          [.sendMessage m2.chat_id
            (formatTranslation cache "language.set.error.not_admin" chatLang)
            none none]) ∧
      (∀ c l, Action.putChatLanguage c l ∉
        sendSetLangPromptReply msg chatLang false cache) ∧
      (∀ c l, Action.putChatLanguage c l ∉
        handleSetLangCallbackQuery cq chatLang false cache) := by
  intro msg m2 cq chatLang lang2 cache
  refine ⟨by simp [sendSetLangPromptReply], ?_, ?_, ?_⟩
  · intro h1 h2 h3 h4
    simp [handleSetLangCallbackQuery, h1, h2, h3, h4]
  · intro c l
    simp [sendSetLangPromptReply]
  · intro c l
    cases hm : cq.message with
    | none => simp [handleSetLangCallbackQuery, hm]
    | some m =>
      cases hd : cq.data with
      | none => simp [handleSetLangCallbackQuery, hm, hd]
      | some s =>
        simp only [handleSetLangCallbackQuery]
        rw [hm, hd]
        split_ifs <;> simp_all

/-- Witness for C8: a concrete non-admin `/setlang` command and a concrete
non-admin language-selection click. -/
theorem setlang_non_admin_refused_witness :
    sendSetLangPromptReply ⟨10, 7, 5, some "/setlang", none, none⟩ "en" false
        emptyCache =
      [.sendMessage 5
        (formatTranslation emptyCache "language.set.error.not_admin" "en")
        none none] ∧
    handleSetLangCallbackQuery
        ⟨"cb2", 7, some ⟨11, 9, 5, some "prompt", none, none⟩, some "uk"⟩ "en"
        false emptyCache =
      [.sendMessage 5
        (formatTranslation emptyCache "language.set.error.not_admin" "en")
        none none] :=
  ⟨(setlang_non_admin_refused ⟨10, 7, 5, some "/setlang", none, none⟩
      ⟨11, 9, 5, some "prompt", none, none⟩
      ⟨"cb2", 7, some ⟨11, 9, 5, some "prompt", none, none⟩, some "uk"⟩
      "en" "uk" emptyCache).1,
   (setlang_non_admin_refused ⟨10, 7, 5, some "/setlang", none, none⟩
      ⟨11, 9, 5, some "prompt", none, none⟩
      ⟨"cb2", 7, some ⟨11, 9, 5, some "prompt", none, none⟩, some "uk"⟩
      "en" "uk" emptyCache).2.1 rfl (by decide) rfl (by decide)⟩

/-- C10: whenever the member-status lookup fails (the fetch or the JSON
decode throws), `isChatAdministrator` returns `false`; consequently the
language flow refuses such a user as a non-administrator and the mute flow
proceeds to restrict them rather than taking the admin-refusal branch. -/
theorem isChatAdministrator_error_false :
    ∀ (e : String) (msg : Message) (chatLang : String) (cache : Cache)
      (chatId : Int) (userId messageId now durationSeconds : Nat)
      (invalid capped : Bool) (requestedDuration : Option String),
      isChatAdministrator (Except.error e) = false ∧
      sendSetLangPromptReply msg chatLang (isChatAdministrator (Except.error e))
          cache =
        [.sendMessage msg.chat_id
          (formatTranslation cache "language.set.error.not_admin" chatLang)
          none none] ∧
      proceedMute chatId userId messageId chatLang
          (isChatAdministrator (Except.error e)) true now cache durationSeconds
          invalid capped requestedDuration =
        Action.restrictMember chatId userId (now + durationSeconds) ::
        [.sendMessage chatId
          (mutemeReply cache chatLang durationSeconds invalid capped
            requestedDuration)
          (some messageId) none] := by
  intro e msg chatLang cache chatId userId messageId now durationSeconds invalid
    capped requestedDuration
  refine ⟨rfl, ?_, ?_⟩
  · simp [sendSetLangPromptReply, isChatAdministrator]
  · simp [proceedMute, isChatAdministrator]

end SilenceBot
